import Mathlib

/-!
Shallow embedding of the paracetamol-overdose decision engine
(`src/PCM_OD.py`, class `ParacetamolOverdoseDecision` together with the
submit handler of the form step).  Python floats and ints are modelled as
rationals (ℚ); Python dicts returned by the decision methods are modelled
as structures, with absent keys modelled as `none` / default fields;
`None` results are modelled with `Option`.
-/

/-! ## Constants (from `__init__`) -/

def significant_dose_threshold : ℚ := 75
def high_risk_dose_threshold : ℚ := 150
def blood_test_wait_time_hours : ℚ := 4
def late_presentation_threshold : ℚ := 24
def paracetamol_detection_threshold : ℚ := 5
def inr_threshold : ℚ := 13/10
def alt_upper_limit_normal : ℚ := 33
def nac_cont_paracetamol_level : ℚ := 10
def nac_cont_alt_doubled_from_admission_factor : ℚ := 2
def nac_cont_alt_twice_uln_factor : ℚ := 2

/-! ## Data model -/

structure PatientData where
  age : ℚ
  weight : ℚ
  dose_mg : ℚ
  time_hours : ℚ
  is_self_harm : Bool
  is_staggered : Bool
  is_dose_reliable : Bool
  is_symptomatic : Bool
  dose_per_kg : Option ℚ
deriving DecidableEq, Repr

structure BloodPanel where
  paracetamol_level : ℚ
  inr : ℚ
  alt : ℚ
  creatinine_current : ℚ
deriving DecidableEq, Repr

structure ClinicalSigns where
  has_jaundice : Bool
  has_liver_tenderness : Bool
deriving DecidableEq, Repr

/-- The decision dict returned by `make_initial_decision` and its helpers.
Keys that a given return dict omits are modelled as `none`. -/
structure Decision where
  recommendation : String
  reason : String
  blood_tests_needed : Option Bool
  blood_delay_hours : Option ℚ
  clinical_signs_needed : Option Bool
deriving DecidableEq, Repr

structure DosingProtocol where
  weight_range : String
  dose1_mg : ℚ
  vol1_ml : ℚ
  rate1_mlhr : ℚ
  dose2_mg : ℚ
  vol2_ml : ℚ
  rate2_mlhr : ℚ
deriving DecidableEq, Repr

/-! ## Nomogram (`nomogram_data`, `get_paracetamol_treatment_threshold`) -/

/-- The nomogram treatment line dict, keys are integer hours. -/
def nomogram_data : List (ℤ × ℚ) :=
  [(4, 100), (5, 82), (6, 70), (7, 60), (8, 50), (9, 40), (10, 35), (11, 30),
   (12, 25), (13, 20), (14, 18), (15, 15)]

/-- Dict access `nomogram_data[k]` for an integer key. -/
def nomogram_lookup (k : ℤ) : Option ℚ :=
  (nomogram_data.find? (fun p => decide (p.1 = k))).map Prod.snd

/-- Dict access `nomogram_data[hours]` for a float key: a float hits an
entry exactly when it equals that entry's integer key. -/
def nomogram_get (hours : ℚ) : Option ℚ :=
  (nomogram_data.find? (fun p => decide ((p.1 : ℚ) = hours))).map Prod.snd

/-- Python membership `hours in nomogram_data`. -/
def nomogram_mem (hours : ℚ) : Bool :=
  (nomogram_get hours).isSome

/-- Python `int(x)`: truncation toward zero. -/
def pyTrunc (q : ℚ) : ℤ :=
  if 0 ≤ q then ⌊q⌋ else ⌈q⌉

/-- Python `round` ties-to-even, applied to an exact rational. -/
def roundHalfEven (q : ℚ) : ℤ :=
  if q - ⌊q⌋ < 1/2 then ⌊q⌋
  else if 1/2 < q - ⌊q⌋ then ⌊q⌋ + 1
  else if 2 ∣ ⌊q⌋ then ⌊q⌋ else ⌊q⌋ + 1

/-- Python `round(x, 1)`: round to one decimal place. -/
def round1 (q : ℚ) : ℚ := (roundHalfEven (q * 10) : ℚ) / 10

def get_paracetamol_treatment_threshold (hours : ℚ) : Option ℚ :=
  if hours < 4 ∨ hours > 15 then none
  else if nomogram_mem hours then nomogram_get hours
  else
    let hour_floor : ℤ := pyTrunc hours
    let hour_ceil : ℤ := hour_floor + 1
    match nomogram_lookup hour_floor, nomogram_lookup hour_ceil with
    | some threshold_floor, some threshold_ceil =>
        let fraction : ℚ := hours - hour_floor
        some (round1 (threshold_floor + fraction * (threshold_ceil - threshold_floor)))
    | _, _ => none

/-! ## NAC dosing (`nac_dosing`, `get_nac_dosing`) -/

def dosing_110_999 : DosingProtocol :=
  ⟨">109 kg", 11000, 55, 128, 22000, 110, 111⟩

def nac_dosing : List ((ℚ × ℚ) × DosingProtocol) :=
  [((40, 49), ⟨"40-49 kg", 4600, 23, 112, 9000, 45, 105⟩),
   ((50, 59), ⟨"50-59 kg", 5600, 28, 114, 11000, 55, 106⟩),
   ((60, 69), ⟨"60-69 kg", 6600, 33, 117, 13000, 65, 107⟩),
   ((70, 79), ⟨"70-79 kg", 7600, 38, 119, 15000, 75, 108⟩),
   ((80, 89), ⟨"80-89 kg", 8600, 43, 122, 17000, 85, 109⟩),
   ((90, 99), ⟨"90-99 kg", 9600, 48, 124, 19000, 95, 110⟩),
   ((100, 109), ⟨"100-109 kg", 10600, 53, 127, 21000, 105, 111⟩),
   ((110, 999), dosing_110_999)]

/-- Iterate the dosing dict in insertion order, return the first band whose
closed interval contains the weight; fall back to the `(110, 999)` entry. -/
def get_nac_dosing (weight : ℚ) : DosingProtocol :=
  match nac_dosing.find? (fun e => decide (e.1.1 ≤ weight ∧ weight ≤ e.1.2)) with
  | some e => e.2
  | none => dosing_110_999

/-! ## Initial decision (`calculate_dose_per_kg` .. `_handle_therapeutic_excess`) -/

def calculate_dose_per_kg (dose_mg weight : ℚ) : ℚ :=
  if weight > 0 then dose_mg / weight else 0

def is_significant_dose_self_harm (patient_data : PatientData) : Bool :=
  if !patient_data.is_dose_reliable then true
  else decide (calculate_dose_per_kg patient_data.dose_mg patient_data.weight
                ≥ significant_dose_threshold)

def handle_self_harm_overdose (patient_data : PatientData) (dose_per_kg : ℚ) : Decision :=
  let time_hours := patient_data.time_hours
  if !is_significant_dose_self_harm patient_data then
    ⟨"DELAY_BLOODS_SELF_HARM",
     "Self-harm context - despite dose being below significant threshold, bloods required at 4 hours post ingestion.",
     some true, some blood_test_wait_time_hours, none⟩
  else if time_hours > late_presentation_threshold then
    ⟨"LATE_PRESENTATION",
     "Late presentation (>24 hours). Take bloods immediately and assess for clinical signs.",
     some true, none, some true⟩
  else if patient_data.is_staggered then
    ⟨"START_NAC_DELAY_BLOODS",
     "Self-harm: Staggered overdose or timing unclear - start NAC immediately, take bloods at 4 hours.",
     some true, some 4, none⟩
  else if dose_per_kg ≥ high_risk_dose_threshold ∧ time_hours ≥ 7 then
    ⟨"START_NAC_DELAY_BLOODS",
     "Self-harm: Acute overdose >= 150 mg/kg and >=7 hours post ingestion - start NAC immediately.",
     some true, some 4, none⟩
  else if time_hours < blood_test_wait_time_hours then
    ⟨"DELAY_BLOODS_SELF_HARM",
     "Self-harm: <4 hours post ingestion - delay bloods until 4 hours.",
     some true, some blood_test_wait_time_hours, none⟩
  else if time_hours ≥ blood_test_wait_time_hours then
    ⟨"TAKE_BLOODS_DECIDE",
     "Self-harm: >=4 hours post ingestion - take bloods to determine NAC need.",
     some true, none, none⟩
  else
    ⟨"REVIEW_CASE", "Unhandled self-harm scenario.", none, none, none⟩

def handle_therapeutic_excess (patient_data : PatientData) (dose_per_kg : ℚ) : Decision :=
  let licensed_dose_24hr : ℚ := 4000
  if patient_data.is_symptomatic then
    ⟨"REFER_HOSPITAL_SYMPTOMATIC",
     "Patient is symptomatic. Refer to hospital for assessment. Consider NAC if clinical features of hepatic injury.",
     some true, none, none⟩
  else if patient_data.dose_mg > licensed_dose_24hr ∧ dose_per_kg ≥ significant_dose_threshold then
    ⟨"REFER_HOSPITAL_HIGH_DOSE_EXCESS",
     "Ingested > licensed dose AND >= 75 mg/kg in 24 hours. Check bloods at least 4 hours after last ingestion.",
     some true, some 4, none⟩
  else if patient_data.dose_mg > licensed_dose_24hr ∧ dose_per_kg < significant_dose_threshold then
    ⟨"CONSIDER_BLOODS_LOW_RISK_EXCESS",
     "Ingested > licensed dose but < 75 mg/kg/24 hours. Risk is small, but blood tests may be considered.",
     some true, none, none⟩
  else if patient_data.dose_mg ≤ licensed_dose_24hr ∧ dose_per_kg < significant_dose_threshold then
    ⟨"NO_ACTION_THERAPEUTIC",
     "Dose consistently less than licensed dose and < 75 mg/kg. No further assessment needed.",
     some false, none, none⟩
  else
    ⟨"REVIEW_CASE", "Unhandled therapeutic excess scenario.", none, none, none⟩

/-- The in-place write `patient_data['dose_per_kg'] = dose_per_kg`. -/
def withDosePerKg (pd : PatientData) (d : ℚ) : PatientData :=
  ⟨pd.age, pd.weight, pd.dose_mg, pd.time_hours, pd.is_self_harm, pd.is_staggered,
   pd.is_dose_reliable, pd.is_symptomatic, some d⟩

/-- `make_initial_decision` mutates its argument dict (it stores
`dose_per_kg` on it) and returns a decision dict; the pair returned here is
(return value, argument dict after the call). -/
def make_initial_decision (patient_data : PatientData) : Decision × PatientData :=
  let dose_per_kg := calculate_dose_per_kg patient_data.dose_mg patient_data.weight
  let pd : PatientData := withDosePerKg patient_data dose_per_kg
  if pd.is_self_harm then
    (handle_self_harm_overdose pd dose_per_kg, pd)
  else
    (handle_therapeutic_excess pd dose_per_kg, pd)

/-! ## NAC indication (`assess_nac_indication`) -/

def no_indication_reason : String :=
  "No indication for NAC based on current blood results and clinical context."

def assess_nac_indication (patient_data : PatientData) (blood_results : BloodPanel)
    (clinical_signs : ClinicalSigns) : Bool × String :=
  let time_hours := patient_data.time_hours
  let paracetamol_level := blood_results.paracetamol_level
  let inr := blood_results.inr
  let alt := blood_results.alt
  if clinical_signs.has_jaundice || clinical_signs.has_liver_tenderness then
    (true, "NAC is indicated due to clinical signs of liver injury (jaundice or tenderness).")
  else if inr > inr_threshold ∨ alt > alt_upper_limit_normal then
    (true, "NAC is indicated due to abnormal liver function (INR > 1.3 or ALT > 33 IU/L).")
  else
    -- the self-harm block may fall through (no return) into the
    -- `if not is_self_harm` block and the final generic return
    let self_harm_hit : Option (Bool × String) :=
      if patient_data.is_self_harm then
        if patient_data.is_staggered then
          if paracetamol_level > paracetamol_detection_threshold then
            some (true, "NAC is indicated for staggered ingestion with detectable paracetamol (>5 mg/L).")
          else none
        else
          if 4 ≤ time_hours ∧ time_hours ≤ 15 then
            match get_paracetamol_treatment_threshold time_hours with
            | some treatment_threshold =>
                -- `if treatment_threshold and level >= treatment_threshold`:
                -- a threshold of 0 would be falsy in Python
                if treatment_threshold ≠ 0 ∧ paracetamol_level ≥ treatment_threshold then
                  some (true,
                    "NAC is indicated as paracetamol level (" ++ toString paracetamol_level
                      ++ " mg/L) is on or above the treatment line ("
                      ++ toString treatment_threshold ++ " mg/L).")
                else none
            | none => none
          else if time_hours > 15 then
            if paracetamol_level > paracetamol_detection_threshold then
              some (true, "NAC is indicated for ingestion >15 hours ago with detectable paracetamol (>5 mg/L).")
            else none
          else none
      else none
    match self_harm_hit with
    | some r => r
    | none =>
        if patient_data.is_self_harm = false ∧ paracetamol_level ≥ nac_cont_paracetamol_level then
          (true, "NAC is indicated for therapeutic excess with paracetamol level >= 10 mg/L.")
        else
          (false, no_indication_reason)

/-! ## NAC continuation (`assess_nac_continuation`) -/

def assess_nac_continuation (reassessment_bloods : BloodPanel)
    (admission_bloods : Option BloodPanel) : Bool × String :=
  match admission_bloods with
  | none => (false, "Error: Admission blood results not available for comparison.")
  | some ab =>
    let reasons : List String :=
      (if reassessment_bloods.paracetamol_level ≥ nac_cont_paracetamol_level then
        ["Paracetamol level is >= 10 mg/L"] else [])
      ++ (if reassessment_bloods.alt ≥ ab.alt * nac_cont_alt_doubled_from_admission_factor then
        ["ALT has doubled (or more) from the admission value"] else [])
      ++ (if reassessment_bloods.alt > alt_upper_limit_normal * nac_cont_alt_twice_uln_factor then
        ["ALT is more than twice the upper limit of normal (> 66 IU/L)"] else [])
      ++ (if reassessment_bloods.inr > ab.inr then
        ["INR has increased from the admission value"] else [])
    let continue_nac : Bool :=
      decide (reassessment_bloods.paracetamol_level ≥ nac_cont_paracetamol_level
        ∨ reassessment_bloods.alt ≥ ab.alt * nac_cont_alt_doubled_from_admission_factor
        ∨ reassessment_bloods.alt > alt_upper_limit_normal * nac_cont_alt_twice_uln_factor
        ∨ reassessment_bloods.inr > ab.inr)
    if continue_nac then
      (true, "Continue NAC. Reason(s): " ++ String.intercalate "; " reasons ++ ".")
    else
      (false, "Criteria for NAC continuation not met. Stop NAC and recheck bloods in 4-6 hours.")

/-! ## Form submit handler (UI layer validation, lines 243-256 of the source) -/

/-- The patient form submit handler: age gate first, then the positivity
validation of weight and dose, and only then the engine call. -/
def submit_intake (age weight dose_mg time_hours : ℚ)
    (is_self_harm is_staggered is_dose_reliable is_symptomatic : Bool) :
    Except String Decision :=
  if age < 18 then
    .error "This tool is for patients aged 18 years and above only."
  else if weight ≤ 0 ∨ dose_mg ≤ 0 then
    .error "Weight and Dose must be positive values."
  else
    .ok (make_initial_decision
          ⟨age, weight, dose_mg, time_hours, is_self_harm, is_staggered,
           is_dose_reliable, is_symptomatic, none⟩).1

/-! ## String containment helper (for reason-string claims) -/

/-- `leadsIn n h` holds when the char list `n` is an initial segment of `h`. -/
def leadsIn : List Char → List Char → Bool
  | [], _ => true
  | _ :: _, [] => false
  | a :: as, b :: bs => a == b && leadsIn as bs

/-- `strContains hay needle`: `needle` occurs contiguously inside `hay`. -/
def strContains (hay needle : String) : Bool :=
  (List.range (hay.data.length + 1)).any fun i => leadsIn needle.data (hay.data.drop i)

/-! ## Helper lemmas -/

lemma pyTrunc_eq_floor {q : ℚ} (h : 0 ≤ q) : pyTrunc q = ⌊q⌋ := if_pos h

lemma roundHalfEven_ge_floor (q : ℚ) : ⌊q⌋ ≤ roundHalfEven q := by
  unfold roundHalfEven
  split_ifs <;> omega

lemma round1_ge_15 {q : ℚ} (h : 15 ≤ q) : 15 ≤ round1 q := by
  have h1 : (150 : ℤ) ≤ ⌊q * 10⌋ := Int.le_floor.mpr (by push_cast; linarith)
  have h2 : (150 : ℤ) ≤ roundHalfEven (q * 10) := le_trans h1 (roundHalfEven_ge_floor _)
  have h3 : (150 : ℚ) ≤ (roundHalfEven (q * 10) : ℚ) := by exact_mod_cast h2
  unfold round1
  rw [le_div_iff₀ (by norm_num : (0:ℚ) < 10)]
  linarith

lemma nomogram_lookup_ge_15 {k : ℤ} {v : ℚ} (h : nomogram_lookup k = some v) : 15 ≤ v := by
  unfold nomogram_lookup at h
  obtain ⟨p, hp, hv⟩ := Option.map_eq_some'.mp h
  have hm := List.mem_of_find?_eq_some hp
  simp only [nomogram_data, List.mem_cons, List.not_mem_nil, or_false] at hm
  rcases hm with rfl | rfl | rfl | rfl | rfl | rfl | rfl | rfl | rfl | rfl | rfl | rfl <;>
    rw [← hv] <;> norm_num

lemma nomogram_get_ge_15 {h v : ℚ} (hg : nomogram_get h = some v) : 15 ≤ v := by
  unfold nomogram_get at hg
  obtain ⟨p, hp, hv⟩ := Option.map_eq_some'.mp hg
  have hm := List.mem_of_find?_eq_some hp
  simp only [nomogram_data, List.mem_cons, List.not_mem_nil, or_false] at hm
  rcases hm with rfl | rfl | rfl | rfl | rfl | rfl | rfl | rfl | rfl | rfl | rfl | rfl <;>
    rw [← hv] <;> norm_num

lemma nomogram_lookup_isSome {k : ℤ} (h4 : 4 ≤ k) (h15 : k ≤ 15) :
    ∃ v, nomogram_lookup k = some v := by
  interval_cases k <;> exact ⟨_, rfl⟩

lemma nomogram_mem_false {h : ℚ} (hd : h.den ≠ 1) : nomogram_mem h = false := by
  have key : ∀ q0 : ℚ, q0.den = 1 → ¬(q0 = h) := fun q0 hq0 he => hd (he ▸ hq0)
  simp [nomogram_mem, nomogram_get, nomogram_data, List.find?,
    key 4 rfl, key 5 rfl, key 6 rfl, key 7 rfl, key 8 rfl, key 9 rfl,
    key 10 rfl, key 11 rfl, key 12 rfl, key 13 rfl, key 14 rfl, key 15 rfl]

lemma floor_bounds {h : ℚ} (hd : h.den ≠ 1) (h4 : 4 ≤ h) (h15 : h ≤ 15) :
    4 ≤ ⌊h⌋ ∧ ⌊h⌋ ≤ 14 := by
  have hne : h ≠ 15 := by
    intro he
    apply hd
    rw [he]
    rfl
  have hlt : h < 15 := lt_of_le_of_ne h15 hne
  constructor
  · exact Int.le_floor.mpr (by exact_mod_cast h4)
  · have h1 : ⌊h⌋ < 15 := Int.floor_lt.mpr (by exact_mod_cast hlt)
    omega

lemma g_fractional {h : ℚ} (hd : h.den ≠ 1) (h4 : 4 ≤ h) (h15 : h ≤ 15) :
    ∃ tf tc : ℚ, nomogram_lookup ⌊h⌋ = some tf ∧ nomogram_lookup (⌊h⌋ + 1) = some tc ∧
      get_paracetamol_treatment_threshold h
        = some (round1 (tf + (h - ⌊h⌋) * (tc - tf))) := by
  obtain ⟨hfl, hfu⟩ := floor_bounds hd h4 h15
  obtain ⟨tf, htf⟩ := nomogram_lookup_isSome hfl (by omega)
  obtain ⟨tc, htc⟩ := nomogram_lookup_isSome (k := ⌊h⌋ + 1) (by omega) (by omega)
  refine ⟨tf, tc, htf, htc, ?_⟩
  unfold get_paracetamol_treatment_threshold
  rw [if_neg (by push_neg; exact ⟨h4, h15⟩)]
  rw [pyTrunc_eq_floor (by linarith)]
  simp only [nomogram_mem_false hd, Bool.false_eq_true, if_false, htf, htc]

lemma g_some_ge_15 {h t : ℚ} (hg : get_paracetamol_treatment_threshold h = some t) :
    15 ≤ t := by
  unfold get_paracetamol_treatment_threshold at hg
  by_cases h1 : h < 4 ∨ h > 15
  · rw [if_pos h1] at hg
    exact absurd hg (by simp)
  rw [if_neg h1] at hg
  push_neg at h1
  obtain ⟨h4, h15⟩ := h1
  by_cases h2 : nomogram_mem h = true
  · rw [if_pos h2] at hg
    exact nomogram_get_ge_15 hg
  · rw [if_neg h2] at hg
    simp only [pyTrunc_eq_floor (show (0:ℚ) ≤ h by linarith)] at hg
    set n : ℤ := ⌊h⌋ with hn
    cases hf : nomogram_lookup n with
    | none => rw [hf] at hg; exact absurd hg (by simp)
    | some tf =>
      cases hc : nomogram_lookup (n + 1) with
      | none => rw [hf, hc] at hg; exact absurd hg (by simp)
      | some tc =>
        rw [hf, hc] at hg
        simp only [Option.some.injEq] at hg
        have htf := nomogram_lookup_ge_15 hf
        have htc := nomogram_lookup_ge_15 hc
        have hf0 : (0:ℚ) ≤ h - n := by
          have := Int.floor_le h
          rw [← hn] at this
          linarith
        have hf1 : h - n < 1 := by
          have := Int.lt_floor_add_one h
          rw [← hn] at this
          linarith
        have e1 : (0:ℚ) ≤ (1 - (h - n)) * (tf - 15) :=
          mul_nonneg (by linarith) (by linarith)
        have e2 : (0:ℚ) ≤ (h - n) * (tc - 15) :=
          mul_nonneg (by linarith) (by linarith)
        have hb : 15 ≤ tf + (h - n) * (tc - tf) := by nlinarith [e1, e2]
        rw [← hg]
        exact round1_ge_15 hb

/-! ## Claim theorems -/

/-- Claim C3: the treatment line is undefined outside 4..15 hours, returns
the table value at integer hours (100, 82, 70, 60, 50, 40, 35, 30, 25, 20,
18, 15 at hours 4..15), and for fractional hours in the domain returns the
linear interpolation between the floor-hour and ceiling-hour table values
rounded to one decimal place; in particular at 4 it is 100, at 15 it is 15,
at 4.5 it is 91.0, and at 3.9 and 15.1 it is undefined. -/
theorem nomogram_treatment_line_spec (h : ℚ) :
    ((h < 4 ∨ h > 15) → get_paracetamol_treatment_threshold h = none)
    ∧ (4 ≤ h → h ≤ 15 → h.den = 1 →
        get_paracetamol_treatment_threshold h = nomogram_lookup h.num)
    ∧ (4 ≤ h → h ≤ 15 → h.den ≠ 1 →
        ∃ tf tc : ℚ, nomogram_lookup ⌊h⌋ = some tf ∧ nomogram_lookup (⌊h⌋ + 1) = some tc ∧
          get_paracetamol_treatment_threshold h
            = some (round1 (tf + (h - ⌊h⌋) * (tc - tf))))
    ∧ get_paracetamol_treatment_threshold 4 = some 100
    ∧ get_paracetamol_treatment_threshold 5 = some 82
    ∧ get_paracetamol_treatment_threshold 6 = some 70
    ∧ get_paracetamol_treatment_threshold 7 = some 60
    ∧ get_paracetamol_treatment_threshold 8 = some 50
    ∧ get_paracetamol_treatment_threshold 9 = some 40
    ∧ get_paracetamol_treatment_threshold 10 = some 35
    ∧ get_paracetamol_treatment_threshold 11 = some 30
    ∧ get_paracetamol_treatment_threshold 12 = some 25
    ∧ get_paracetamol_treatment_threshold 13 = some 20
    ∧ get_paracetamol_treatment_threshold 14 = some 18
    ∧ get_paracetamol_treatment_threshold 15 = some 15
    ∧ get_paracetamol_treatment_threshold (9/2) = some 91
    ∧ get_paracetamol_treatment_threshold (39/10) = none
    ∧ get_paracetamol_treatment_threshold (151/10) = none := by
  refine ⟨?_, ?_, ?_, by decide, by decide, by decide, by decide, by decide, by decide,
    by decide, by decide, by decide, by decide, by decide, by decide, ?_, ?_, ?_⟩
  · intro hout
    unfold get_paracetamol_treatment_threshold
    rw [if_pos hout]
  · intro h4 h15 hden
    have hnum : ((h.num : ℚ)) = h := (Rat.den_eq_one_iff h).mp hden
    have hml : 4 ≤ h.num := by
      rw [← hnum] at h4
      exact_mod_cast h4
    have hmu : h.num ≤ 15 := by
      rw [← hnum] at h15
      exact_mod_cast h15
    rw [← hnum]
    rw [Rat.num_intCast]
    interval_cases h.num <;> decide
  · intro h4 h15 hden
    exact g_fractional hden h4 h15
  · norm_num [get_paracetamol_treatment_threshold, nomogram_mem, nomogram_get,
      nomogram_lookup, nomogram_data, List.find?, pyTrunc, round1, roundHalfEven]
  · norm_num [get_paracetamol_treatment_threshold]
  · norm_num [get_paracetamol_treatment_threshold]

theorem nomogram_treatment_line_spec_witness :
    get_paracetamol_treatment_threshold (39/10) = none :=
  (nomogram_treatment_line_spec (39/10)).1 (Or.inl (by norm_num))

/-- Claim C4: for a self-harm, non-staggered intake with 4 <= timeHours <= 15,
no clinical signs, INR <= 1.3 and ALT <= 33, NAC is indicated exactly when the
paracetamol level is greater than or equal to the treatment-line threshold:
the nomogram comparison boundary is inclusive. -/
theorem nac_indication_nomogram_boundary (pd : PatientData) (blood : BloodPanel)
    (signs : ClinicalSigns)
    (hsh : pd.is_self_harm = true) (hst : pd.is_staggered = false)
    (h4 : 4 ≤ pd.time_hours) (h15 : pd.time_hours ≤ 15)
    (hj : signs.has_jaundice = false) (hlt : signs.has_liver_tenderness = false)
    (hinr : blood.inr ≤ 13/10) (halt : blood.alt ≤ 33)
    (t : ℚ) (ht : get_paracetamol_treatment_threshold pd.time_hours = some t) :
    ((assess_nac_indication pd blood signs).1 = true ↔ t ≤ blood.paracetamol_level) := by
  have ht15 : 15 ≤ t := g_some_ge_15 ht
  have ht0 : t ≠ 0 := by
    intro h0
    rw [h0] at ht15
    norm_num at ht15
  have hc2 : ¬(blood.inr > inr_threshold ∨ blood.alt > alt_upper_limit_normal) := by
    push_neg
    exact ⟨by simpa [inr_threshold] using hinr, by simpa [alt_upper_limit_normal] using halt⟩
  have hc3 : 4 ≤ pd.time_hours ∧ pd.time_hours ≤ 15 := ⟨h4, h15⟩
  by_cases hl : t ≤ blood.paracetamol_level
  · simp [assess_nac_indication, hj, hlt, hc2, hsh, hst, hc3, ht, ht0, hl]
  · simp [assess_nac_indication, hj, hlt, hc2, hsh, hst, hc3, ht, ht0, hl]

theorem nac_indication_nomogram_boundary_witness :
    (assess_nac_indication ⟨18, 70, 20000, 6, true, false, true, false, none⟩
      ⟨70, 1, 10, 80⟩ ⟨false, false⟩).1 = true := by
  have h := nac_indication_nomogram_boundary
    ⟨18, 70, 20000, 6, true, false, true, false, none⟩ ⟨70, 1, 10, 80⟩ ⟨false, false⟩
    rfl rfl (by norm_num) (by norm_num) rfl rfl (by norm_num) (by norm_num)
    70 (by decide)
  exact h.mpr (by norm_num)

/-- Claim C5: `assess_nac_indication` is an ordered override chain: clinical
signs of liver injury force indicated = true regardless of everything else,
and otherwise admission INR > 1.3 or ALT > 33 IU/L forces indicated = true
regardless of level, staggered flag, self-harm flag and timing. -/
theorem nac_indication_override_chain (pd : PatientData) (blood : BloodPanel)
    (signs : ClinicalSigns) :
    ((signs.has_jaundice = true ∨ signs.has_liver_tenderness = true) →
        (assess_nac_indication pd blood signs).1 = true)
    ∧ (signs.has_jaundice = false → signs.has_liver_tenderness = false →
        (blood.inr > 13/10 ∨ blood.alt > 33) →
        (assess_nac_indication pd blood signs).1 = true) := by
  constructor
  · intro hs
    have hb : (signs.has_jaundice || signs.has_liver_tenderness) = true := by
      rcases hs with h | h <;> simp [h]
    simp [assess_nac_indication, hb]
  · intro hj hlt hc
    have h2 : blood.inr > inr_threshold ∨ blood.alt > alt_upper_limit_normal := by
      simpa [inr_threshold, alt_upper_limit_normal] using hc
    simp [assess_nac_indication, hj, hlt, h2]

theorem nac_indication_override_chain_witness :
    (assess_nac_indication ⟨18, 70, 1000, 1, false, false, true, false, none⟩
      ⟨0, 14/10, 10, 80⟩ ⟨false, false⟩).1 = true :=
  (nac_indication_override_chain
    ⟨18, 70, 1000, 1, false, false, true, false, none⟩
    ⟨0, 14/10, 10, 80⟩ ⟨false, false⟩).2 rfl rfl (Or.inl (by norm_num))

set_option maxRecDepth 8192 in
/-- Claim C2: with an admission panel present, NAC continuation is the
logical OR of the four checks (reassessment paracetamol >= 10 mg/L,
reassessment ALT >= 2 x admission ALT, reassessment ALT > 66 IU/L,
reassessment INR strictly greater than admission INR), and the reason
string contains the clause of every check that holds. -/
theorem nac_continuation_or_and_reasons (re ab : BloodPanel) :
    ((assess_nac_continuation re (some ab)).1 = true ↔
      (re.paracetamol_level ≥ 10 ∨ re.alt ≥ 2 * ab.alt ∨ re.alt > 66 ∨ re.inr > ab.inr))
    ∧ (re.paracetamol_level ≥ 10 →
        strContains (assess_nac_continuation re (some ab)).2
          "Paracetamol level is >= 10 mg/L" = true)
    ∧ (re.alt ≥ 2 * ab.alt →
        strContains (assess_nac_continuation re (some ab)).2
          "ALT has doubled (or more) from the admission value" = true)
    ∧ (re.alt > 66 →
        strContains (assess_nac_continuation re (some ab)).2
          "ALT is more than twice the upper limit of normal (> 66 IU/L)" = true)
    ∧ (re.inr > ab.inr →
        strContains (assess_nac_continuation re (some ab)).2
          "INR has increased from the admission value" = true) := by
  have hcomm : (2 * ab.alt : ℚ) = ab.alt * 2 := mul_comm _ _
  by_cases h1 : re.paracetamol_level ≥ 10 <;>
    by_cases h2 : re.alt ≥ ab.alt * 2 <;>
      by_cases h3 : re.alt > 66 <;>
        by_cases h4 : re.inr > ab.inr <;>
          norm_num [assess_nac_continuation, nac_cont_paracetamol_level,
            nac_cont_alt_doubled_from_admission_factor, nac_cont_alt_twice_uln_factor,
            alt_upper_limit_normal, hcomm, h1, h2, h3, h4] <;>
          decide

theorem nac_continuation_or_and_reasons_witness :
    strContains (assess_nac_continuation ⟨12, 1, 10, 80⟩ (some ⟨0, 1, 10, 80⟩)).2
      "Paracetamol level is >= 10 mg/L" = true :=
  (nac_continuation_or_and_reasons ⟨12, 1, 10, 80⟩ ⟨0, 1, 10, 80⟩).2.1 (by norm_num)

/-- Claim C7: a continuation assessment without an admission baseline is a
reported failure (continue = false with the explicit missing-baseline error
reason), not a crash. -/
theorem nac_continuation_missing_admission (re : BloodPanel) :
    assess_nac_continuation re none
      = (false, "Error: Admission blood results not available for comparison.") := rfl

/-- Claim C6: `get_nac_dosing` always returns a protocol; a weight inside one
of the eight closed bands returns that band's protocol (weight 70 gives
phase-1 dose 7600 mg at 119 ml/hr), and every weight matching none of the
eight bands - including weights below 40 kg and at or above 110 kg - yields
the ">109 kg" protocol (phase-1 dose 11000 mg); weights 200 and 10 both
yield it. -/
theorem nac_dosing_bands_and_fallback (w : ℚ) :
    (40 ≤ w → w ≤ 49 → get_nac_dosing w = ⟨"40-49 kg", 4600, 23, 112, 9000, 45, 105⟩)
    ∧ (50 ≤ w → w ≤ 59 → get_nac_dosing w = ⟨"50-59 kg", 5600, 28, 114, 11000, 55, 106⟩)
    ∧ (60 ≤ w → w ≤ 69 → get_nac_dosing w = ⟨"60-69 kg", 6600, 33, 117, 13000, 65, 107⟩)
    ∧ (70 ≤ w → w ≤ 79 → get_nac_dosing w = ⟨"70-79 kg", 7600, 38, 119, 15000, 75, 108⟩)
    ∧ (80 ≤ w → w ≤ 89 → get_nac_dosing w = ⟨"80-89 kg", 8600, 43, 122, 17000, 85, 109⟩)
    ∧ (90 ≤ w → w ≤ 99 → get_nac_dosing w = ⟨"90-99 kg", 9600, 48, 124, 19000, 95, 110⟩)
    ∧ (100 ≤ w → w ≤ 109 → get_nac_dosing w = ⟨"100-109 kg", 10600, 53, 127, 21000, 105, 111⟩)
    ∧ (¬(40 ≤ w ∧ w ≤ 49) → ¬(50 ≤ w ∧ w ≤ 59) → ¬(60 ≤ w ∧ w ≤ 69) →
        ¬(70 ≤ w ∧ w ≤ 79) → ¬(80 ≤ w ∧ w ≤ 89) → ¬(90 ≤ w ∧ w ≤ 99) →
        ¬(100 ≤ w ∧ w ≤ 109) → get_nac_dosing w = dosing_110_999)
    ∧ (get_nac_dosing 70).dose1_mg = 7600 ∧ (get_nac_dosing 70).rate1_mlhr = 119
    ∧ get_nac_dosing 200 = dosing_110_999 ∧ (get_nac_dosing 200).dose1_mg = 11000
    ∧ get_nac_dosing 10 = dosing_110_999 := by
  refine ⟨?_, ?_, ?_, ?_, ?_, ?_, ?_, ?_, by decide, by decide, by decide, by decide, by decide⟩
  · intro ha hb
    simp [get_nac_dosing, nac_dosing, List.find?, ha, hb]
  · intro ha hb
    have x1 : ¬(w ≤ 49) := by linarith
    simp [get_nac_dosing, nac_dosing, List.find?, ha, hb, x1]
  · intro ha hb
    have x1 : ¬(w ≤ 49) := by linarith
    have x2 : ¬(w ≤ 59) := by linarith
    simp [get_nac_dosing, nac_dosing, List.find?, ha, hb, x1, x2]
  · intro ha hb
    have x1 : ¬(w ≤ 49) := by linarith
    have x2 : ¬(w ≤ 59) := by linarith
    have x3 : ¬(w ≤ 69) := by linarith
    simp [get_nac_dosing, nac_dosing, List.find?, ha, hb, x1, x2, x3]
  · intro ha hb
    have x1 : ¬(w ≤ 49) := by linarith
    have x2 : ¬(w ≤ 59) := by linarith
    have x3 : ¬(w ≤ 69) := by linarith
    have x4 : ¬(w ≤ 79) := by linarith
    simp [get_nac_dosing, nac_dosing, List.find?, ha, hb, x1, x2, x3, x4]
  · intro ha hb
    have x1 : ¬(w ≤ 49) := by linarith
    have x2 : ¬(w ≤ 59) := by linarith
    have x3 : ¬(w ≤ 69) := by linarith
    have x4 : ¬(w ≤ 79) := by linarith
    have x5 : ¬(w ≤ 89) := by linarith
    simp [get_nac_dosing, nac_dosing, List.find?, ha, hb, x1, x2, x3, x4, x5]
  · intro ha hb
    have x1 : ¬(w ≤ 49) := by linarith
    have x2 : ¬(w ≤ 59) := by linarith
    have x3 : ¬(w ≤ 69) := by linarith
    have x4 : ¬(w ≤ 79) := by linarith
    have x5 : ¬(w ≤ 89) := by linarith
    have x6 : ¬(w ≤ 99) := by linarith
    simp [get_nac_dosing, nac_dosing, List.find?, ha, hb, x1, x2, x3, x4, x5, x6]
  · intro n1 n2 n3 n4 n5 n6 n7
    by_cases h9 : 110 ≤ w ∧ w ≤ 999
    · simp [get_nac_dosing, nac_dosing, List.find?, n1, n2, n3, n4, n5, n6, n7, h9.1, h9.2]
    · simp [get_nac_dosing, nac_dosing, List.find?, n1, n2, n3, n4, n5, n6, n7, h9]

theorem nac_dosing_bands_and_fallback_witness :
    get_nac_dosing 70 = ⟨"70-79 kg", 7600, 38, 119, 15000, 75, 108⟩ :=
  (nac_dosing_bands_and_fallback 70).2.2.2.1 (by norm_num) (by norm_num)

lemma get_nac_dosing_no_band_match (w : ℚ)
    (n1 : ¬(40 ≤ w ∧ w ≤ 49)) (n2 : ¬(50 ≤ w ∧ w ≤ 59)) (n3 : ¬(60 ≤ w ∧ w ≤ 69))
    (n4 : ¬(70 ≤ w ∧ w ≤ 79)) (n5 : ¬(80 ≤ w ∧ w ≤ 89)) (n6 : ¬(90 ≤ w ∧ w ≤ 99))
    (n7 : ¬(100 ≤ w ∧ w ≤ 109)) (n8 : ¬(110 ≤ w ∧ w ≤ 999)) :
    get_nac_dosing w = dosing_110_999 := by
  simp [get_nac_dosing, nac_dosing, List.find?, n1, n2, n3, n4, n5, n6, n7, n8]

/-- Claim C10: every weight strictly inside any of the seven open gaps
between two adjacent bands (49-50, 59-60, 69-70, 79-80, 89-90, 99-100,
109-110, e.g. 49.5 kg) matches no band and receives the ">109 kg" fallback
protocol, despite lying inside the 40-109 kg range the bands are meant to
cover. -/
theorem nac_dosing_gap_between_bands (w : ℚ)
    (h : (49 < w ∧ w < 50) ∨ (59 < w ∧ w < 60) ∨ (69 < w ∧ w < 70) ∨
         (79 < w ∧ w < 80) ∨ (89 < w ∧ w < 90) ∨ (99 < w ∧ w < 100) ∨
         (109 < w ∧ w < 110)) :
    get_nac_dosing w = dosing_110_999 := by
  rcases h with ⟨ha, hb⟩ | ⟨ha, hb⟩ | ⟨ha, hb⟩ | ⟨ha, hb⟩ | ⟨ha, hb⟩ | ⟨ha, hb⟩ | ⟨ha, hb⟩ <;>
    exact get_nac_dosing_no_band_match w
      (by rintro ⟨x, y⟩; linarith) (by rintro ⟨x, y⟩; linarith)
      (by rintro ⟨x, y⟩; linarith) (by rintro ⟨x, y⟩; linarith)
      (by rintro ⟨x, y⟩; linarith) (by rintro ⟨x, y⟩; linarith)
      (by rintro ⟨x, y⟩; linarith) (by rintro ⟨x, y⟩; linarith)

theorem nac_dosing_gap_between_bands_witness :
    get_nac_dosing (99/2) = dosing_110_999 :=
  nac_dosing_gap_between_bands (99/2) (Or.inl ⟨by norm_num, by norm_num⟩)

/-- Claim C1 (counterexample): a valid intake (weight 40 > 0, dose 4000 > 0,
age 18, time 0) in the therapeutic-excess branch reaches the REVIEW_CASE
sentinel: with dose_mg = 4000 <= 4000 and dose_per_kg = 100 >= 75 none of
the four therapeutic-excess rules matches. -/
theorem initial_decision_review_case_reachable :
    (0:ℚ) < 40 ∧ (0:ℚ) < 4000 ∧ (18:ℚ) ≤ 18 ∧ (0:ℚ) ≤ 0 ∧
    (make_initial_decision ⟨18, 40, 4000, 0, false, false, true, false, none⟩).1.recommendation
      = "REVIEW_CASE" := by
  refine ⟨by norm_num, by norm_num, le_refl _, le_refl _, ?_⟩
  norm_num [make_initial_decision, handle_therapeutic_excess, calculate_dose_per_kg,
    withDosePerKg, significant_dose_threshold]

/-- Claim C1 (amended): for every valid intake, the self-harm branch's
REVIEW_CASE fallthrough is unreachable (its rule partition is exhaustive),
but the therapeutic-excess branch returns REVIEW_CASE exactly when the
patient is asymptomatic, dose_mg <= 4000 and dose_per_kg >= 75. -/
theorem initial_decision_review_case_partition (pd : PatientData)
    (hw : 0 < pd.weight) (_hd : 0 < pd.dose_mg) (_ha : 18 ≤ pd.age)
    (_htm : 0 ≤ pd.time_hours) :
    (pd.is_self_harm = true →
      (make_initial_decision pd).1.recommendation ≠ "REVIEW_CASE")
    ∧ (pd.is_self_harm = false →
      ((make_initial_decision pd).1.recommendation = "REVIEW_CASE" ↔
        pd.is_symptomatic = false ∧ pd.dose_mg ≤ 4000 ∧ 75 ≤ pd.dose_mg / pd.weight)) := by
  have hdpk : calculate_dose_per_kg pd.dose_mg pd.weight = pd.dose_mg / pd.weight :=
    if_pos hw
  constructor
  · intro hsh
    simp only [make_initial_decision, withDosePerKg, hsh, if_true,
      handle_self_harm_overdose]
    split_ifs with c1 c2 c3 c4 c5 c6 <;> try decide
    push_neg at c5 c6
    exact absurd c6 (by simpa using c5)
  · intro hsh
    simp only [make_initial_decision, withDosePerKg, hsh, Bool.false_eq_true, if_false,
      handle_therapeutic_excess, hdpk, significant_dose_threshold]
    split_ifs with c1 c2 c3 c4
    · simp only [show ("REFER_HOSPITAL_SYMPTOMATIC" = "REVIEW_CASE") = False by simp]
      simp [c1]
    · simp only [show ("REFER_HOSPITAL_HIGH_DOSE_EXCESS" = "REVIEW_CASE") = False by simp]
      rw [false_iff]
      rintro ⟨hs, hle, hge⟩
      linarith [c2.1]
    · simp only [show ("CONSIDER_BLOODS_LOW_RISK_EXCESS" = "REVIEW_CASE") = False by simp]
      rw [false_iff]
      rintro ⟨hs, hle, hge⟩
      linarith [c3.2]
    · simp only [show ("NO_ACTION_THERAPEUTIC" = "REVIEW_CASE") = False by simp]
      rw [false_iff]
      rintro ⟨hs, hle, hge⟩
      linarith [c4.2]
    · simp only [true_iff, show ("REVIEW_CASE" = "REVIEW_CASE") = True by simp]
      push_neg at c2 c3 c4
      by_cases hsym : pd.is_symptomatic = true
      · exact absurd hsym (by simpa using c1)
      · have hsym' : pd.is_symptomatic = false := by
          cases hx : pd.is_symptomatic
          · rfl
          · exact absurd hx hsym
        by_cases hd4 : pd.dose_mg > 4000
        · rcases lt_or_le (pd.dose_mg / pd.weight) 75 with hlt | hge
          · exact absurd (c3 hd4) (by linarith)
          · exact absurd (c2 hd4) (by linarith)
        · push_neg at hd4
          exact ⟨hsym', hd4, c4 hd4⟩

theorem initial_decision_review_case_partition_witness :
    (make_initial_decision ⟨18, 40, 6000, 8, true, false, true, false, none⟩).1.recommendation
      ≠ "REVIEW_CASE" :=
  (initial_decision_review_case_partition
    ⟨18, 40, 6000, 8, true, false, true, false, none⟩
    (by norm_num) (by norm_num) (by norm_num) (by norm_num)).1 rfl

/-- Claim C8 (counterexample): the engine itself performs no validation: with
weight = 0 (non-positive) and dose 1000, `calculate_dose_per_kg` silently
substitutes 0 for the dose-per-kg ratio and `make_initial_decision` returns
an ordinary Decision (DELAY_BLOODS_SELF_HARM), not a validation failure. -/
theorem engine_accepts_nonpositive_weight :
    (0:ℚ) ≤ 0 ∧ calculate_dose_per_kg 1000 0 = 0 ∧
    (make_initial_decision ⟨18, 0, 1000, 2, true, false, true, false, none⟩).1.recommendation
      = "DELAY_BLOODS_SELF_HARM" :=
  ⟨le_refl _, by decide, by decide⟩

/-- Claim C8 (amended): the non-positive weight/dose validation lives in the
form submit handler, not the engine: for an intake passing the age gate, a
non-positive weight or dose is rejected there with the validation error
before `make_initial_decision` runs, while the engine function itself maps
any non-positive weight to a silent dose_per_kg of 0. -/
theorem validation_in_submit_handler (age weight dose_mg time_hours : ℚ)
    (sh st dr sy : Bool) (hage : ¬(age < 18)) (h : weight ≤ 0 ∨ dose_mg ≤ 0) :
    submit_intake age weight dose_mg time_hours sh st dr sy
      = Except.error "Weight and Dose must be positive values."
    ∧ (∀ d w : ℚ, w ≤ 0 → calculate_dose_per_kg d w = 0) := by
  constructor
  · unfold submit_intake
    rw [if_neg hage, if_pos h]
  · intro d w hw
    unfold calculate_dose_per_kg
    rw [if_neg (by linarith)]

theorem validation_in_submit_handler_witness :
    submit_intake 18 0 100 2 true false true false
      = Except.error "Weight and Dose must be positive values." :=
  (validation_in_submit_handler 18 0 100 2 true false true false
    (by norm_num) (Or.inl (le_refl 0))).1

/-- Claim C9: all three decision functions are deterministic (equal inputs
give identical outputs, reason strings included), and re-running
`make_initial_decision` on the record it mutated (the cached dose_per_kg
write) still returns the identical decision. -/
theorem decision_functions_deterministic (pd1 pd2 : PatientData) (blood : BloodPanel)
    (signs : ClinicalSigns) (re : BloodPanel) (adm : Option BloodPanel)
    (h : pd1 = pd2) :
    make_initial_decision pd1 = make_initial_decision pd2
    ∧ assess_nac_indication pd1 blood signs = assess_nac_indication pd2 blood signs
    ∧ assess_nac_continuation re adm = assess_nac_continuation re adm
    ∧ (make_initial_decision (make_initial_decision pd1).2).1
        = (make_initial_decision pd1).1 := by
  subst h
  refine ⟨rfl, rfl, rfl, ?_⟩
  rcases pd1 with ⟨a, w, d, t, sh, st, dr, sy, dpk⟩
  cases sh <;> rfl

theorem decision_functions_deterministic_witness :
    make_initial_decision ⟨18, 70, 1000, 2, true, false, true, false, none⟩
      = make_initial_decision ⟨18, 70, 1000, 2, true, false, true, false, none⟩
    ∧ (make_initial_decision
        (make_initial_decision ⟨18, 70, 1000, 2, true, false, true, false, none⟩).2).1
      = (make_initial_decision ⟨18, 70, 1000, 2, true, false, true, false, none⟩).1 := by
  have h := decision_functions_deterministic
    ⟨18, 70, 1000, 2, true, false, true, false, none⟩
    ⟨18, 70, 1000, 2, true, false, true, false, none⟩
    ⟨0, 1, 10, 80⟩ ⟨false, false⟩ ⟨0, 1, 10, 80⟩ none rfl
  exact ⟨h.1, h.2.2.2⟩
